import Mathlib

/-!
Shallow embedding of the idempotency / metrics core of the
mina_connectivity_backend API (src/main.py) and proofs of the frozen
claims about it.

Conventions of the embedding:
  * Python dicts are modelled as association lists `List (String × α)`
    with first-match lookup and first-match replace (Python dicts have
    unique keys, so first match is the only match).
  * Python floats that carry measured durations, coordinates and ratios
    are modelled as exact rationals `ℚ`; `int(x)` on a non-negative
    value is `Nat` floor.
  * The MySQL collaborator (`save_marcacion_to_db`) is modelled as an
    oracle parameter: `Option ℕ` — `some rid` means the INSERT committed
    and returned row id `rid`, `none` means it raised.  The embedding
    counts every invocation of the persistence operation in
    `save_calls`.
-/

/-- Python dict read with a default (`defaultdict` access / `dict.get`):
first entry whose key matches, else the default. -/
def dictGet {α : Type} (d : List (String × α)) (k : String) (dflt : α) : α :=
  match d with
  | [] => dflt
  | (k', v) :: rest => if k' = k then v else dictGet rest k dflt

/-- Python `k in d` / `d[k]` read: first entry whose key matches. -/
def dictGetOpt {α : Type} (d : List (String × α)) (k : String) : Option α :=
  match d with
  | [] => none
  | (k', v) :: rest => if k' = k then some v else dictGetOpt rest k

/-- Python dict write `d[k] = v`: replace the first entry with key `k`,
append a new entry when `k` is absent. -/
def dictSet {α : Type} (d : List (String × α)) (k : String) (v : α) :
    List (String × α) :=
  match d with
  | [] => [(k, v)]
  | (k', v') :: rest =>
      if k' = k then (k', v) :: rest else (k', v') :: dictSet rest k v

/-- Sum of the values of a dict (`sum(d.values())`). -/
def sumValues (d : List (String × Nat)) : Nat :=
  (d.map (fun kv => kv.2)).sum

theorem dictGet_set_same {α : Type} (d : List (String × α)) (k : String)
    (v dflt : α) : dictGet (dictSet d k v) k dflt = v := by
  induction d with
  | nil => simp [dictGet, dictSet]
  | cons hd tl ih =>
      obtain ⟨k', v'⟩ := hd
      by_cases h : k' = k <;> simp [dictGet, dictSet, h, ih]

theorem dictGet_set_other {α : Type} (d : List (String × α)) (k k' : String)
    (v dflt : α) (hne : k' ≠ k) :
    dictGet (dictSet d k v) k' dflt = dictGet d k' dflt := by
  induction d with
  | nil => simp [dictGet, dictSet, Ne.symm hne]
  | cons hd tl ih =>
      obtain ⟨k₀, v₀⟩ := hd
      by_cases h : k₀ = k
      · subst h
        simp [dictGet, dictSet, Ne.symm hne]
      · simp only [dictGet, dictSet, h, if_false]
        by_cases h' : k₀ = k' <;> simp [dictGet, h', ih]

theorem dictGetOpt_set_same {α : Type} (d : List (String × α)) (k : String)
    (v : α) : dictGetOpt (dictSet d k v) k = some v := by
  induction d with
  | nil => simp [dictGetOpt, dictSet]
  | cons hd tl ih =>
      obtain ⟨k', v'⟩ := hd
      by_cases h : k' = k <;> simp [dictGetOpt, dictSet, h, ih]

theorem sumValues_incr (d : List (String × Nat)) (k : String) :
    sumValues (dictSet d k (dictGet d k 0 + 1)) = sumValues d + 1 := by
  induction d with
  | nil => simp [sumValues, dictSet, dictGet]
  | cons hd tl ih =>
      obtain ⟨k', v'⟩ := hd
      by_cases h : k' = k
      · simp [sumValues, dictSet, dictGet, h]
        omega
      · simp only [sumValues, dictSet, dictGet, h, if_false, List.map_cons,
          List.sum_cons] at *
        omega

/-!
## Metrics Collector (src/main.py, class MetricsCollector, lines 89-107)

`request_times : defaultdict(list)`, `error_counts : defaultdict(int)`,
`success_counts : defaultdict(int)`.
-/

structure MetricsCollector where
  request_times : List (String × List ℚ)
  error_counts : List (String × Nat)
  success_counts : List (String × Nat)
deriving Repr, DecidableEq

/-- `MetricsCollector.__init__`: all three dicts start empty. -/
def MetricsCollector.init : MetricsCollector :=
  { request_times := [], error_counts := [], success_counts := [] }

/-- The list update performed by `record_request_time` on one endpoint's
sample list: `append(duration)`, then `if len > 50: pop(0)`. -/
def appendCapped (times : List ℚ) (duration : ℚ) : List ℚ :=
  let ys := times ++ [duration]
  if 50 < ys.length then ys.drop 1 else ys

/-- `MetricsCollector.record_request_time` (lines 95-99). -/
def record_request_time (m : MetricsCollector) (endpoint : String)
    (duration : ℚ) : MetricsCollector :=
  { m with request_times :=
      (dictSet m.request_times endpoint
        (appendCapped (dictGet m.request_times endpoint []) duration)) }

/-- `MetricsCollector.record_success` (lines 101-102). -/
def record_success (m : MetricsCollector) (endpoint : String) :
    MetricsCollector :=
  { m with success_counts :=
      (dictSet m.success_counts endpoint
        (dictGet m.success_counts endpoint 0 + 1)) }

/-- `MetricsCollector.record_error` (lines 104-105). -/
def record_error (m : MetricsCollector) (endpoint : String) :
    MetricsCollector :=
  { m with error_counts :=
      (dictSet m.error_counts endpoint
        (dictGet m.error_counts endpoint 0 + 1)) }

/-- One recording call made against the collector. -/
inductive MEvent where
  | reqTime (endpoint : String) (duration : ℚ)
  | success (endpoint : String)
  | error (endpoint : String)
deriving Repr, DecidableEq

def applyEvent (m : MetricsCollector) : MEvent → MetricsCollector
  | .reqTime e d => record_request_time m e d
  | .success e => record_success m e
  | .error e => record_error m e

def applyEvents (m : MetricsCollector) (evs : List MEvent) : MetricsCollector :=
  evs.foldl applyEvent m

/-- The per-endpoint mean computed by `get_metrics` (line 388):
`sum(times)/len(times) if times else 0`. -/
def avg_response_time (times : List ℚ) : ℚ :=
  if times.isEmpty then 0 else times.sum / times.length

/-- `total_requests` as computed by `get_metrics` (line 394):
`sum(success_counts.values()) + sum(error_counts.values())`. -/
def total_requests (m : MetricsCollector) : Nat :=
  sumValues m.success_counts + sumValues m.error_counts

/-- The latency samples recorded for endpoint `E`, in arrival order. -/
def latFor (E : String) (evs : List MEvent) : List ℚ :=
  evs.filterMap (fun ev =>
    match ev with
    | .reqTime e d => if e = E then some d else none
    | _ => none)

/-- The number of `record_success E` calls in the event list. -/
def countSuccess (E : String) (evs : List MEvent) : Nat :=
  (evs.filter (fun ev =>
    match ev with
    | .success e => e = E
    | _ => false)).length

/-- The number of `record_error E` calls in the event list. -/
def countError (E : String) (evs : List MEvent) : Nat :=
  (evs.filter (fun ev =>
    match ev with
    | .error e => e = E
    | _ => false)).length

/-- The number of `record_success` calls over all endpoints. -/
def countSuccessAll (evs : List MEvent) : Nat :=
  (evs.filter (fun ev =>
    match ev with
    | .success _ => true
    | _ => false)).length

/-- The number of `record_error` calls over all endpoints. -/
def countErrorAll (evs : List MEvent) : Nat :=
  (evs.filter (fun ev =>
    match ev with
    | .error _ => true
    | _ => false)).length

theorem appendCapped_eq_drop (xs : List ℚ) (d : ℚ) (h : xs.length ≤ 50) :
    appendCapped xs d = (xs ++ [d]).drop ((xs.length + 1) - 50) := by
  unfold appendCapped
  by_cases hl : 50 < (xs ++ [d]).length
  · have hx : xs.length + 1 - 50 = 1 := by simp at hl; omega
    simp only [hl, if_true, hx]
  · have hx : xs.length + 1 - 50 = 0 := by simp at hl; omega
    simp only [hl, if_false, hx, List.drop_zero]

theorem appendCapped_length (xs : List ℚ) (d : ℚ) (h : xs.length ≤ 50) :
    (appendCapped xs d).length ≤ 50 := by
  rw [appendCapped_eq_drop xs d h]
  simp
  omega

theorem foldl_appendCapped (ds : List ℚ) :
    ∀ xs : List ℚ, xs.length ≤ 50 →
      List.foldl appendCapped xs ds =
        (xs ++ ds).drop ((xs.length + ds.length) - 50) := by
  induction ds with
  | nil =>
      intro xs h
      have h0 : xs.length + List.length ([] : List ℚ) - 50 = 0 := by
        simp; omega
      simp only [List.foldl_nil, List.append_nil, h0, List.drop_zero]
  | cons d ds ih =>
      intro xs h
      have hA : appendCapped xs d = (xs ++ [d]).drop ((xs.length + 1) - 50) :=
        appendCapped_eq_drop xs d h
      have hAlen : (appendCapped xs d).length ≤ 50 := appendCapped_length xs d h
      rw [List.foldl_cons, ih _ hAlen, hA]
      have hsplit : ((xs ++ [d]) ++ ds).drop ((xs.length + 1) - 50)
          = ((xs ++ [d]).drop ((xs.length + 1) - 50)) ++ ds := by
        rw [List.drop_append_eq_append_drop]
        have h0 : (xs.length + 1) - 50 - (xs ++ [d]).length = 0 := by
          simp; omega
        rw [h0, List.drop_zero]
      rw [← hsplit, List.drop_drop]
      have hl2 : (xs ++ [d]) ++ ds = xs ++ d :: ds := by simp
      rw [hl2]
      congr 1
      simp only [List.length_drop, List.length_append, List.length_cons,
        List.length_nil]
      omega

theorem applyEvents_cons (m : MetricsCollector) (ev : MEvent)
    (evs : List MEvent) :
    applyEvents m (ev :: evs) = applyEvents (applyEvent m ev) evs := rfl

theorem times_after_events (evs : List MEvent) :
    ∀ (m : MetricsCollector) (E : String),
      dictGet (applyEvents m evs).request_times E [] =
        List.foldl appendCapped (dictGet m.request_times E []) (latFor E evs) := by
  induction evs with
  | nil => intro m E; simp [applyEvents, latFor]
  | cons ev evs ih =>
      intro m E
      rw [applyEvents_cons, ih]
      cases ev with
      | reqTime e d =>
          by_cases he : e = E
          · subst he
            simp [latFor, applyEvent, record_request_time, dictGet_set_same]
          · have hne : E ≠ e := fun hh => he hh.symm
            simp [latFor, applyEvent, record_request_time, he,
              dictGet_set_other _ _ _ _ _ hne]
      | success e => simp [latFor, applyEvent, record_success]
      | error e => simp [latFor, applyEvent, record_error]

theorem success_after_events (evs : List MEvent) :
    ∀ (m : MetricsCollector) (E : String),
      dictGet (applyEvents m evs).success_counts E 0 =
        dictGet m.success_counts E 0 + countSuccess E evs := by
  induction evs with
  | nil => intro m E; simp [applyEvents, countSuccess]
  | cons ev evs ih =>
      intro m E
      rw [applyEvents_cons, ih]
      cases ev with
      | reqTime e d => simp [countSuccess, applyEvent, record_request_time]
      | success e =>
          by_cases he : e = E
          · subst he
            simp [countSuccess, applyEvent, record_success, dictGet_set_same,
              List.filter]
            omega
          · have hne : E ≠ e := fun hh => he hh.symm
            simp [countSuccess, applyEvent, record_success, he, List.filter,
              dictGet_set_other _ _ _ _ _ hne]
      | error e => simp [countSuccess, applyEvent, record_error]

theorem error_after_events (evs : List MEvent) :
    ∀ (m : MetricsCollector) (E : String),
      dictGet (applyEvents m evs).error_counts E 0 =
        dictGet m.error_counts E 0 + countError E evs := by
  induction evs with
  | nil => intro m E; simp [applyEvents, countError]
  | cons ev evs ih =>
      intro m E
      rw [applyEvents_cons, ih]
      cases ev with
      | reqTime e d => simp [countError, applyEvent, record_request_time]
      | success e => simp [countError, applyEvent, record_success]
      | error e =>
          by_cases he : e = E
          · subst he
            simp [countError, applyEvent, record_error, dictGet_set_same,
              List.filter]
            omega
          · have hne : E ≠ e := fun hh => he hh.symm
            simp [countError, applyEvent, record_error, he, List.filter,
              dictGet_set_other _ _ _ _ _ hne]

theorem sumSuccess_after_events (evs : List MEvent) :
    ∀ m : MetricsCollector,
      sumValues (applyEvents m evs).success_counts =
        sumValues m.success_counts + countSuccessAll evs := by
  induction evs with
  | nil => intro m; simp [applyEvents, countSuccessAll]
  | cons ev evs ih =>
      intro m
      rw [applyEvents_cons, ih]
      cases ev with
      | reqTime e d => simp [countSuccessAll, applyEvent, record_request_time]
      | success e =>
          simp [countSuccessAll, applyEvent, record_success, sumValues_incr,
            List.filter]
          omega
      | error e => simp [countSuccessAll, applyEvent, record_error]

theorem sumError_after_events (evs : List MEvent) :
    ∀ m : MetricsCollector,
      sumValues (applyEvents m evs).error_counts =
        sumValues m.error_counts + countErrorAll evs := by
  induction evs with
  | nil => intro m; simp [applyEvents, countErrorAll]
  | cons ev evs ih =>
      intro m
      rw [applyEvents_cons, ih]
      cases ev with
      | reqTime e d => simp [countErrorAll, applyEvent, record_request_time]
      | success e => simp [countErrorAll, applyEvent, record_success]
      | error e =>
          simp [countErrorAll, applyEvent, record_error, sumValues_incr,
            List.filter]
          omega

/-- C4: for every endpoint E and every sequence of recording calls, the
retained latency sample list for E never exceeds 50 elements and is exactly
the most recently inserted samples in arrival order (the suffix of the
arrival sequence); in particular after 60 insertions for E the reported
mean is the arithmetic mean of exactly the last 50 inserted values. -/
theorem latency_window_c4 (events : List MEvent) (E : String) :
    dictGet (applyEvents MetricsCollector.init events).request_times E [] =
      (latFor E events).drop ((latFor E events).length - 50) ∧
    (dictGet (applyEvents MetricsCollector.init events).request_times E []).length
      ≤ 50 ∧
    ((latFor E events).length = 60 →
      avg_response_time
        (dictGet (applyEvents MetricsCollector.init events).request_times E [])
        = ((latFor E events).drop 10).sum / 50) := by
  have h1 : dictGet (applyEvents MetricsCollector.init events).request_times E []
      = List.foldl appendCapped [] (latFor E events) := by
    rw [times_after_events]
    rfl
  have h2 := foldl_appendCapped (latFor E events) [] (by simp)
  simp only [List.nil_append, List.length_nil, Nat.zero_add] at h2
  have hmain : dictGet (applyEvents MetricsCollector.init events).request_times E []
      = (latFor E events).drop ((latFor E events).length - 50) := h1.trans h2
  refine ⟨hmain, ?_, ?_⟩
  · rw [hmain]
    simp only [List.length_drop]
    omega
  · intro h60
    rw [hmain, h60]
    have hlen : ((latFor E events).drop (60 - 50)).length = 10 + 40 := by
      simp only [List.length_drop, h60]
    have hne : ¬ ((latFor E events).drop (60 - 50)).isEmpty := by
      rw [List.isEmpty_iff_length_eq_zero, hlen]
      omega
    rw [avg_response_time, if_neg hne, hlen]
    norm_num

theorem latency_window_c4_witness :
    avg_response_time
      (dictGet (applyEvents MetricsCollector.init
        (List.replicate 60 (MEvent.reqTime "E" 1))).request_times "E" [])
      = ((latFor "E" (List.replicate 60 (MEvent.reqTime "E" 1))).drop 10).sum / 50 :=
  (latency_window_c4 (List.replicate 60 (MEvent.reqTime "E" 1)) "E").2.2 (by decide)

/-- C5: for every endpoint E, after K record_success(E) calls and
J record_error(E) calls (in any interleaving with other recording calls)
the metrics read reports success count K and error count J for E, and
total_requests equals the sum of all success counts plus the sum of all
error counts over all endpoints (= the total number of success and error
recordings). -/
theorem counters_c5 (events : List MEvent) (E : String) :
    dictGet (applyEvents MetricsCollector.init events).success_counts E 0 =
      countSuccess E events ∧
    dictGet (applyEvents MetricsCollector.init events).error_counts E 0 =
      countError E events ∧
    total_requests (applyEvents MetricsCollector.init events) =
      countSuccessAll events + countErrorAll events := by
  refine ⟨?_, ?_, ?_⟩
  · rw [success_after_events]
    simp [MetricsCollector.init, dictGet]
  · rw [error_after_events]
    simp [MetricsCollector.init, dictGet]
  · rw [total_requests, sumSuccess_after_events, sumError_after_events]
    simp [MetricsCollector.init, sumValues]

/-!
## Compression Simulator (src/main.py, `simulate_compression`, lines 241-252)

The external `gzip.compress` call is modelled by the oracle `gzipLen`,
giving the byte length of the compressed form of the input.  The `else`
branch models `int(original_size * 0.4)` as the exact floor `2 * n / 5`
(ℕ division), which agrees with the Python float computation for all
realistic sizes.  `ratio` is the exact rational
`compressed_size / original_size` with the `original_size = 0` guard of
line 251.
-/

def simulate_compression (gzipLen : String → Nat) (data : String)
    (compression_type : String) : Nat × ℚ :=
  let original_size := data.utf8ByteSize
  let compressed_size :=
    if compression_type = "gzip" then gzipLen data
    else 2 * original_size / 5
  let ratio : ℚ :=
    if 0 < original_size then (compressed_size : ℚ) / original_size else 1
  (compressed_size, ratio)

theorem simulate_compression_estimated (gzipLen : String → Nat)
    (data : String) :
    simulate_compression gzipLen data "estimated" =
      (2 * data.utf8ByteSize / 5,
        if 0 < data.utf8ByteSize then
          ((2 * data.utf8ByteSize / 5 : Nat) : ℚ) / data.utf8ByteSize
        else 1) := by
  have hne : ("estimated" : String) ≠ "gzip" := by decide
  simp [simulate_compression, hne]

/-- C6 counterexample: on the one-byte input "a" the estimated scheme
returns compression ratio 0, which is not strictly greater than 0, so the
ratio is not in (0, 1] for every nonempty input. -/
theorem compression_ratio_c6_counterexample :
    "a".utf8ByteSize ≠ 0 ∧
    (simulate_compression (fun _ => 21) "a" "estimated").2 = 0 := by
  constructor
  · decide
  · have h1 : "a".utf8ByteSize = 1 := rfl
    rw [simulate_compression_estimated]
    simp [h1]

/-- C6 (amended): under the estimated scheme the ratio for nonempty input
lies in [0, 2/5] (it is 0 exactly when the input is shorter than 3 bytes),
and for empty input the ratio is exactly 1 under any scheme selector. -/
theorem compression_ratio_c6_amended (gzipLen : String → Nat) (data : String)
    (ct : String) :
    (data.utf8ByteSize ≠ 0 →
      0 ≤ (simulate_compression gzipLen data "estimated").2 ∧
      (simulate_compression gzipLen data "estimated").2 ≤ 2/5) ∧
    (data.utf8ByteSize = 0 → (simulate_compression gzipLen data ct).2 = 1) := by
  constructor
  · intro hn
    have hpos : 0 < data.utf8ByteSize := Nat.pos_of_ne_zero hn
    have hq : (0 : ℚ) < (data.utf8ByteSize : ℚ) := by
      exact_mod_cast hpos
    rw [simulate_compression_estimated]
    simp only [hpos, if_true]
    constructor
    · exact div_nonneg (Nat.cast_nonneg _) (le_of_lt hq)
    · have hcast : ((2 * data.utf8ByteSize / 5 : Nat) : ℚ) ≤
          (2 * (data.utf8ByteSize : ℚ)) / 5 := by
        have := Nat.cast_div_le (α := ℚ) (m := 2 * data.utf8ByteSize) (n := 5)
        push_cast at this
        exact this
      have hdiv := (div_le_div_iff_of_pos_right hq).mpr hcast
      refine hdiv.trans (le_of_eq ?_)
      field_simp
      ring
  · intro hz
    simp [simulate_compression, hz]

theorem compression_ratio_c6_amended_witness :
    (0 ≤ (simulate_compression (fun _ => 21) "ab" "estimated").2 ∧
      (simulate_compression (fun _ => 21) "ab" "estimated").2 ≤ 2/5) ∧
    (simulate_compression (fun _ => 21) "" "gzip").2 = 1 :=
  ⟨(compression_ratio_c6_amended (fun _ => 21) "ab" "x").1 (by decide),
   (compression_ratio_c6_amended (fun _ => 21) "" "gzip").2 (by decide)⟩

/-- C7: under the estimated scheme the simulator returns
compressed_size = floor(n × 0.4) for UTF-8 byte length n, and
ratio = compressed_size / n when n > 0 and ratio = 1.0 when n = 0. -/
theorem estimated_compression_c7 (gzipLen : String → Nat) (data : String) :
    (simulate_compression gzipLen data "estimated").1 =
      Nat.floor ((data.utf8ByteSize : ℚ) * (4/10)) ∧
    (0 < data.utf8ByteSize →
      (simulate_compression gzipLen data "estimated").2 =
        (((simulate_compression gzipLen data "estimated").1 : ℚ)
          / data.utf8ByteSize)) ∧
    (data.utf8ByteSize = 0 →
      (simulate_compression gzipLen data "estimated").2 = 1) := by
  refine ⟨?_, ?_, ?_⟩
  · have hcast : (data.utf8ByteSize : ℚ) * (4/10) =
        ((2 * data.utf8ByteSize : Nat) : ℚ) / ((5 : Nat) : ℚ) := by
      push_cast
      ring
    rw [simulate_compression_estimated, hcast, Nat.floor_div_eq_div]
  · intro hpos
    rw [simulate_compression_estimated]
    simp [hpos]
  · intro hz
    rw [simulate_compression_estimated]
    simp [hz]

theorem estimated_compression_c7_witness :
    (simulate_compression (fun _ => 21) "abc" "estimated").2 =
      (((simulate_compression (fun _ => 21) "abc" "estimated").1 : ℚ) / 3) ∧
    (simulate_compression (fun _ => 21) "" "estimated").2 = 1 :=
  ⟨(estimated_compression_c7 (fun _ => 21) "abc").2.1 (by decide),
   (estimated_compression_c7 (fun _ => 21) "").2.2 (by decide)⟩

/-!
## Payload Sizer (src/main.py, `calculate_payload_size`, lines 236-239)

`json.dumps(data.dict() if hasattr(data, 'dict') else data, default=str)`
followed by `len(json_str.encode('utf-8'))`.  Records reach the sizer as
flat Python dicts; values are strings, floats, None, or — the case
`default=str` exists for — a value of a type the JSON encoder does not
support, which `default=str` replaces by its `str()` form.  Floats are
modelled as exact rationals; integral floats print with a trailing
".0" exactly as Python prints them, the decimal rendering of
non-integral floats is not needed by any claim and is modelled by a
fixed deterministic fallback.  `ensure_ascii` escaping of non-ASCII code
points is likewise not needed by any claim and not modelled.
-/

/-- A value in a record dict passed to the payload sizer.  `other` is a
value of a type the JSON encoder does not support, carrying its `str()`
form. -/
inductive PyPrim where
  | str (s : String)
  | num (q : ℚ)
  | pyBool (b : Bool)
  | null
  | other (strForm : String)
deriving Repr, DecidableEq

def PyPrim.supported : PyPrim → Bool
  | .other _ => false
  | _ => true

/-- JSON string escaping of one character as performed by `json.dumps`
(for the character set this API's data uses). -/
def jsonEscapeChar (c : Char) : String :=
  if c = '\\' then "\\\\"
  else if c = '\"' then "\\\""
  else if c = '\n' then "\\n"
  else if c = '\t' then "\\t"
  else if c = '\r' then "\\r"
  else String.singleton c

def jsonEscape (s : String) : String :=
  String.join (s.toList.map jsonEscapeChar)

/-- A JSON string literal: quote, escape, quote. -/
def jsonStringLit (s : String) : String :=
  "\"" ++ jsonEscape s ++ "\""

/-- Rendering of a Python float by `json.dumps`: integral values print
with a trailing ".0" (e.g. `-12.0`). -/
def numRepr (q : ℚ) : String :=
  if q.den = 1 then toString q.num ++ ".0"
  else toString q.num ++ "e" ++ toString q.den

/-- The JSON text `json.dumps(..., default=str)` produces for one dict
value: an unsupported value is passed through `str` and encoded as a
JSON string instead of raising. -/
def dumpValue : PyPrim → String
  | .str s => jsonStringLit s
  | .num q => numRepr q
  | .pyBool b => if b then "true" else "false"
  | .null => "null"
  | .other f => jsonStringLit f

/-- A record's dict form, keys in insertion (field declaration) order. -/
abbrev PyDict := List (String × PyPrim)

/-- `json.dumps(d, default=str)` for a flat dict `d`, with the default
separators `", "` and `": "`. -/
def json_dumps_default_str (d : PyDict) : String :=
  "\x7b" ++ String.intercalate ", "
      (d.map (fun kv => jsonStringLit kv.1 ++ ": " ++ dumpValue kv.2))
    ++ "\x7d"

/-- `calculate_payload_size` (lines 236-239): serialize the record dict
and return its UTF-8 byte length. -/
def calculate_payload_size (data : PyDict) : Nat :=
  (json_dumps_default_str data).utf8ByteSize

/-- The failure the specification assigns to encoding an unsupported
value type. -/
inductive SerializationError where
  | unsupportedType
deriving Repr, DecidableEq

/-- Modelled from the spec: one dict value under the serializer the
specification describes, which fails with `SerializationError` on a
value of an unsupported type (plain `json.dumps` without `default=str`
behaves this way). -/
def dumpValueStrict : PyPrim → Except SerializationError String
  | .other _ => Except.error SerializationError.unsupportedType
  | v => Except.ok (dumpValue v)

/-- Modelled from the spec: the record serializer the specification
describes — identical to `json_dumps_default_str` except that an
unsupported value type fails with a `SerializationError`. -/
def dumpEntriesStrict : PyDict → Except SerializationError (List String)
  | [] => Except.ok []
  | kv :: rest => do
      let s ← dumpValueStrict kv.2
      let ss ← dumpEntriesStrict rest
      pure ((jsonStringLit kv.1 ++ ": " ++ s) :: ss)

/-- Modelled from the spec: the record serializer the specification
describes — identical to `json_dumps_default_str` except that an
unsupported value type fails with a `SerializationError`. -/
def json_dumps_spec (d : PyDict) : Except SerializationError String := do
  let parts ← dumpEntriesStrict d
  pure ("\x7b" ++ String.intercalate ", " parts ++ "\x7d")

/-- C8 counterexample: on a record containing a value of an unsupported
type the code does not fail with a SerializationError as the claim
requires: `default=str` silently encodes the value's string form and the
sizer returns its byte length, while the serializer the spec describes
rejects the same input. -/
theorem payload_sizer_c8_counterexample :
    json_dumps_spec [("v", PyPrim.other "set()")] =
      Except.error SerializationError.unsupportedType ∧
    json_dumps_default_str [("v", PyPrim.other "set()")] =
      "\x7b\"v\": \"set()\"\x7d" ∧
    calculate_payload_size [("v", PyPrim.other "set()")] = 14 := by
  refine ⟨rfl, ?_, ?_⟩ <;> decide

theorem dumpEntriesStrict_ok (d : PyDict)
    (h : ∀ kv ∈ d, kv.2.supported = true) :
    dumpEntriesStrict d =
      Except.ok (d.map (fun kv => jsonStringLit kv.1 ++ ": " ++ dumpValue kv.2)) := by
  induction d with
  | nil => rfl
  | cons kv rest ih =>
      have hv : kv.2.supported = true := h kv (List.mem_cons_self _ _)
      have hstrict : dumpValueStrict kv.2 = Except.ok (dumpValue kv.2) := by
        cases hkv : kv.2 <;> simp_all [PyPrim.supported, dumpValueStrict]
      have hrest := ih (fun x hx => h x (List.mem_cons_of_mem _ hx))
      simp [dumpEntriesStrict, hstrict, hrest, Bind.bind, Except.bind,
        Pure.pure, Except.pure]

/-- C8 (amended): the payload sizer is a pure, total function returning
the UTF-8 byte length of a deterministic serialization of the record; it
never fails — on a record whose values are all of supported types it
agrees with the strict serializer the spec describes, and an unsupported
value is encoded via its string form instead of failing with a
SerializationError. -/
theorem payload_sizer_c8_amended (d : PyDict)
    (h : ∀ kv ∈ d, kv.2.supported = true) :
    json_dumps_spec d = Except.ok (json_dumps_default_str d) ∧
    calculate_payload_size d = (json_dumps_default_str d).utf8ByteSize := by
  refine ⟨?_, rfl⟩
  rw [json_dumps_spec, dumpEntriesStrict_ok d h]
  rfl

theorem payload_sizer_c8_amended_witness :
    json_dumps_spec [("userName", PyPrim.str "A"), ("latitude", PyPrim.num (-12))] =
      Except.ok (json_dumps_default_str
        [("userName", PyPrim.str "A"), ("latitude", PyPrim.num (-12))]) ∧
    calculate_payload_size
        [("userName", PyPrim.str "A"), ("latitude", PyPrim.num (-12))] =
      (json_dumps_default_str
        [("userName", PyPrim.str "A"), ("latitude", PyPrim.num (-12))]).utf8ByteSize :=
  payload_sizer_c8_amended
    [("userName", PyPrim.str "A"), ("latitude", PyPrim.num (-12))] (by decide)


/-!
## Idempotent endpoint (src/main.py, `test_idempotent_request`,
lines 456-493, and the token cache `processed_tokens`, line 140)
-/

/-- The verbose record shape (`MarcacionStandard`, lines 110-119);
floats are modelled as exact rationals. -/
structure MarcacionStandard where
  userName : String
  userEmail : String
  userDni : String
  qrCode : String
  marcationType : String
  latitude : ℚ
  longitude : ℚ
  deviceId : String
  timestamp : Option String
deriving Repr, DecidableEq

/-- `marcacion.dict()`: the pydantic dict of the record, keys in field
declaration order. -/
def MarcacionStandard.dict (m : MarcacionStandard) : PyDict :=
  [("userName", PyPrim.str m.userName),
   ("userEmail", PyPrim.str m.userEmail),
   ("userDni", PyPrim.str m.userDni),
   ("qrCode", PyPrim.str m.qrCode),
   ("marcationType", PyPrim.str m.marcationType),
   ("latitude", PyPrim.num m.latitude),
   ("longitude", PyPrim.num m.longitude),
   ("deviceId", PyPrim.str m.deviceId),
   ("timestamp", match m.timestamp with
                 | some t => PyPrim.str t
                 | none => PyPrim.null)]

/-- The JSON response dict built by the idempotent endpoint
(lines 477-488). -/
structure IdemResponse where
  success : Bool
  test_type : String
  record_id : Nat
  token : String
  payload_size_bytes : Nat
  processing_time_ms : ℚ
  message : String
  is_duplicate : Bool
  environment : String
  server_time : String
deriving Repr, DecidableEq

/-- The mutable server state the idempotent endpoint touches: the token
cache `processed_tokens` (line 140) plus a count of the invocations of
the persistence operation `save_marcacion_to_db`. -/
structure IdemState where
  processed_tokens : List (String × IdemResponse)
  save_calls : Nat
deriving Repr, DecidableEq

/-- `save_marcacion_to_db` re-raises any database failure as an HTTP 500
(lines 289-291). -/
inductive StorageError where
  | saveFailed
deriving Repr, DecidableEq

/-- The duplicate branch (lines 463-466): copy the stored response and
annotate the copy; the stored entry itself is not modified. -/
def annotateDuplicate (stored : IdemResponse) : IdemResponse :=
  { stored with
    is_duplicate := true
    processing_time_ms := 0
    environment := "Railway" }

/-- The first-seen response dict (lines 477-488). -/
def freshResult (token : String) (data : MarcacionStandard)
    (elapsed_ms : ℚ) (now : String) (record_id : Nat) : IdemResponse :=
  { success := true
    test_type := "idempotent_request"
    record_id := record_id
    token := token
    payload_size_bytes := calculate_payload_size data.dict
    processing_time_ms := elapsed_ms
    message := "Marcación con token guardada en Railway MySQL"
    is_duplicate := false
    environment := "Railway"
    server_time := now }

/-- `test_idempotent_request` (lines 456-493).  `elapsed_ms` is the
measured `round((time.time() - start_time) * 1000, 2)` and `now` the
`datetime.now().isoformat()` string, both inputs of the embedding since
they come from the clock.  `dbResult` is the persistence oracle:
`some rid` if `save_marcacion_to_db` commits and returns row id `rid`,
`none` if it raises; either way the invocation is counted in
`save_calls`. -/
def test_idempotent_request (st : IdemState) (token : String)
    (data : MarcacionStandard) (elapsed_ms : ℚ) (now : String)
    (dbResult : Option Nat) :
    Except StorageError IdemResponse × IdemState :=
  match dictGetOpt st.processed_tokens token with
  | some stored => (Except.ok (annotateDuplicate stored), st)
  | none =>
      match dbResult with
      | none =>
          (Except.error StorageError.saveFailed,
           { st with save_calls := st.save_calls + 1 })
      | some record_id =>
          let result := freshResult token data elapsed_ms now record_id
          (Except.ok result,
           { processed_tokens := dictSet st.processed_tokens token result,
             save_calls := st.save_calls + 1 })

theorem test_idempotent_request_hit (st : IdemState) (token : String)
    (data : MarcacionStandard) (e : ℚ) (now : String) (db : Option Nat)
    (stored : IdemResponse)
    (h : dictGetOpt st.processed_tokens token = some stored) :
    test_idempotent_request st token data e now db =
      (Except.ok (annotateDuplicate stored), st) := by
  unfold test_idempotent_request
  rw [h]

theorem test_idempotent_request_miss_ok (st : IdemState) (token : String)
    (data : MarcacionStandard) (e : ℚ) (now : String) (rid : Nat)
    (h : dictGetOpt st.processed_tokens token = none) :
    test_idempotent_request st token data e now (some rid) =
      (Except.ok (freshResult token data e now rid),
       { processed_tokens :=
           dictSet st.processed_tokens token (freshResult token data e now rid),
         save_calls := st.save_calls + 1 }) := by
  unfold test_idempotent_request
  rw [h]

theorem test_idempotent_request_miss_fail (st : IdemState) (token : String)
    (data : MarcacionStandard) (e : ℚ) (now : String)
    (h : dictGetOpt st.processed_tokens token = none) :
    test_idempotent_request st token data e now none =
      (Except.error StorageError.saveFailed,
       { st with save_calls := st.save_calls + 1 }) := by
  unfold test_idempotent_request
  rw [h]

/-- The record submitted by scripts/test_api.py (integral coordinates). -/
def marcacionExample : MarcacionStandard :=
  { userName := "Test User"
    userEmail := "test@mina.com"
    userDni := "12345678"
    qrCode := "QR_1"
    marcationType := "Ingreso"
    latitude := -12
    longitude := -77
    deviceId := "test_device_001"
    timestamp := none }

/-- C1: for a token with no prior cache entry, a first submission
followed by a second submission with the same token makes the second
return a copy of the stored response with is_duplicate = true and
processing_time_ms = 0 and the same record_id as the first response,
without invoking the persistence operation again. -/
theorem idempotent_replay_c1 (st : IdemState) (tok : String)
    (d d' : MarcacionStandard) (e1 e2 : ℚ) (n1 n2 : String) (rid : Nat)
    (db2 : Option Nat) (h : dictGetOpt st.processed_tokens tok = none) :
    ((test_idempotent_request
        (test_idempotent_request st tok d e1 n1 (some rid)).2
        tok d' e2 n2 db2).1.toOption.map IdemResponse.is_duplicate
      = some true) ∧
    ((test_idempotent_request
        (test_idempotent_request st tok d e1 n1 (some rid)).2
        tok d' e2 n2 db2).1.toOption.map IdemResponse.processing_time_ms
      = some 0) ∧
    ((test_idempotent_request
        (test_idempotent_request st tok d e1 n1 (some rid)).2
        tok d' e2 n2 db2).1.toOption.map IdemResponse.record_id
      = (test_idempotent_request st tok d e1 n1 (some rid)).1.toOption.map
          IdemResponse.record_id) ∧
    ((test_idempotent_request
        (test_idempotent_request st tok d e1 n1 (some rid)).2
        tok d' e2 n2 db2).2.save_calls
      = (test_idempotent_request st tok d e1 n1 (some rid)).2.save_calls) := by
  rw [test_idempotent_request_miss_ok st tok d e1 n1 rid h]
  rw [test_idempotent_request_hit _ tok d' e2 n2 db2
    (freshResult tok d e1 n1 rid) (by simp [dictGetOpt_set_same])]
  simp [annotateDuplicate, freshResult, Except.toOption]

theorem idempotent_replay_c1_witness :
    ((test_idempotent_request
        (test_idempotent_request ⟨[], 0⟩ "tok-1" marcacionExample 5 "t1"
          (some 1)).2
        "tok-1" marcacionExample 0 "t2" (some 2)).1.toOption.map
        IdemResponse.is_duplicate = some true) ∧
    ((test_idempotent_request
        (test_idempotent_request ⟨[], 0⟩ "tok-1" marcacionExample 5 "t1"
          (some 1)).2
        "tok-1" marcacionExample 0 "t2" (some 2)).1.toOption.map
        IdemResponse.processing_time_ms = some 0) ∧
    ((test_idempotent_request
        (test_idempotent_request ⟨[], 0⟩ "tok-1" marcacionExample 5 "t1"
          (some 1)).2
        "tok-1" marcacionExample 0 "t2" (some 2)).1.toOption.map
        IdemResponse.record_id
      = (test_idempotent_request ⟨[], 0⟩ "tok-1" marcacionExample 5 "t1"
          (some 1)).1.toOption.map IdemResponse.record_id) ∧
    ((test_idempotent_request
        (test_idempotent_request ⟨[], 0⟩ "tok-1" marcacionExample 5 "t1"
          (some 1)).2
        "tok-1" marcacionExample 0 "t2" (some 2)).2.save_calls
      = (test_idempotent_request ⟨[], 0⟩ "tok-1" marcacionExample 5 "t1"
          (some 1)).2.save_calls) :=
  idempotent_replay_c1 ⟨[], 0⟩ "tok-1" marcacionExample marcacionExample
    5 0 "t1" "t2" 1 (some 2) rfl

/-- C3: if the persistence call of a first-seen submission fails, the
failure propagates to the caller, the token cache is unchanged (the
token is not marked as seen), and a later submission with the same token
is again treated as first-seen: it invokes the persistence operation
once more and returns a non-duplicate response. -/
theorem failed_save_no_poison_c3 (st : IdemState) (tok : String)
    (d d' : MarcacionStandard) (e1 e2 : ℚ) (n1 n2 : String) (rid : Nat)
    (h : dictGetOpt st.processed_tokens tok = none) :
    (test_idempotent_request st tok d e1 n1 none).1 =
      Except.error StorageError.saveFailed ∧
    (test_idempotent_request st tok d e1 n1 none).2.processed_tokens =
      st.processed_tokens ∧
    (test_idempotent_request (test_idempotent_request st tok d e1 n1 none).2
        tok d' e2 n2 (some rid)).1 =
      Except.ok (freshResult tok d' e2 n2 rid) ∧
    (freshResult tok d' e2 n2 rid).is_duplicate = false ∧
    (test_idempotent_request (test_idempotent_request st tok d e1 n1 none).2
        tok d' e2 n2 (some rid)).2.save_calls =
      (test_idempotent_request st tok d e1 n1 none).2.save_calls + 1 := by
  rw [test_idempotent_request_miss_fail st tok d e1 n1 h]
  rw [test_idempotent_request_miss_ok _ tok d' e2 n2 rid (by simpa using h)]
  simp [freshResult]

theorem failed_save_no_poison_c3_witness :
    (test_idempotent_request ⟨[], 0⟩ "tok-1" marcacionExample 5 "t1" none).1 =
      Except.error StorageError.saveFailed ∧
    (test_idempotent_request ⟨[], 0⟩ "tok-1" marcacionExample 5 "t1"
        none).2.processed_tokens = (⟨[], 0⟩ : IdemState).processed_tokens ∧
    (test_idempotent_request
        (test_idempotent_request ⟨[], 0⟩ "tok-1" marcacionExample 5 "t1"
          none).2 "tok-1" marcacionExample 7 "t2" (some 1)).1 =
      Except.ok (freshResult "tok-1" marcacionExample 7 "t2" 1) ∧
    (freshResult "tok-1" marcacionExample 7 "t2" 1).is_duplicate = false ∧
    (test_idempotent_request
        (test_idempotent_request ⟨[], 0⟩ "tok-1" marcacionExample 5 "t1"
          none).2 "tok-1" marcacionExample 7 "t2" (some 1)).2.save_calls =
      (test_idempotent_request ⟨[], 0⟩ "tok-1" marcacionExample 5 "t1"
        none).2.save_calls + 1 :=
  failed_save_no_poison_c3 ⟨[], 0⟩ "tok-1" marcacionExample marcacionExample
    5 7 "t1" "t2" 1 rfl

/-- C10: replaying a token already in the cache leaves the entire server
state — in particular the stored cache entry — unchanged (the duplicate
annotations are applied to a fresh copy only), the replayed response
carries the stored record_id, token and payload_size_bytes, and a later
replay returns the same response again. -/
theorem duplicate_frame_c10 (st : IdemState) (tok : String)
    (stored : IdemResponse) (d d2 : MarcacionStandard) (e e2 : ℚ)
    (n n2 : String) (db db2 : Option Nat)
    (h : dictGetOpt st.processed_tokens tok = some stored) :
    (test_idempotent_request st tok d e n db).2 = st ∧
    (test_idempotent_request st tok d e n db).1 =
      Except.ok (annotateDuplicate stored) ∧
    (annotateDuplicate stored).record_id = stored.record_id ∧
    (annotateDuplicate stored).token = stored.token ∧
    (annotateDuplicate stored).payload_size_bytes =
      stored.payload_size_bytes ∧
    (test_idempotent_request (test_idempotent_request st tok d e n db).2
        tok d2 e2 n2 db2).1 = Except.ok (annotateDuplicate stored) := by
  rw [test_idempotent_request_hit st tok d e n db stored h]
  rw [test_idempotent_request_hit st tok d2 e2 n2 db2 stored h]
  simp [annotateDuplicate]

theorem duplicate_frame_c10_witness :
    (test_idempotent_request
        ⟨[("tok-1", freshResult "tok-1" marcacionExample 5 "t0" 1)], 1⟩
        "tok-1" marcacionExample 9 "t1" (some 7)).2 =
      (⟨[("tok-1", freshResult "tok-1" marcacionExample 5 "t0" 1)], 1⟩ :
        IdemState) ∧
    (test_idempotent_request
        ⟨[("tok-1", freshResult "tok-1" marcacionExample 5 "t0" 1)], 1⟩
        "tok-1" marcacionExample 9 "t1" (some 7)).1 =
      Except.ok (annotateDuplicate
        (freshResult "tok-1" marcacionExample 5 "t0" 1)) ∧
    (annotateDuplicate (freshResult "tok-1" marcacionExample 5 "t0" 1)).record_id
      = (freshResult "tok-1" marcacionExample 5 "t0" 1).record_id ∧
    (annotateDuplicate (freshResult "tok-1" marcacionExample 5 "t0" 1)).token
      = (freshResult "tok-1" marcacionExample 5 "t0" 1).token ∧
    (annotateDuplicate
        (freshResult "tok-1" marcacionExample 5 "t0" 1)).payload_size_bytes
      = (freshResult "tok-1" marcacionExample 5 "t0" 1).payload_size_bytes ∧
    (test_idempotent_request
        (test_idempotent_request
          ⟨[("tok-1", freshResult "tok-1" marcacionExample 5 "t0" 1)], 1⟩
          "tok-1" marcacionExample 9 "t1" (some 7)).2
        "tok-1" marcacionExample 3 "t2" none).1 =
      Except.ok (annotateDuplicate
        (freshResult "tok-1" marcacionExample 5 "t0" 1)) :=
  duplicate_frame_c10
    ⟨[("tok-1", freshResult "tok-1" marcacionExample 5 "t0" 1)], 1⟩
    "tok-1" (freshResult "tok-1" marcacionExample 5 "t0" 1)
    marcacionExample marcacionExample 9 3 "t1" "t2" (some 7) none
    (by simp [dictGetOpt])

/-!
## Request middleware (src/main.py, `metrics_middleware`, lines 143-170)
-/

/-- The outcome of `await asyncio.wait_for(call_next(request), 20.0)` as
seen by the middleware. -/
inductive CallOutcome where
  | success (duration : ℚ)
  | timeout
  | failure
deriving Repr, DecidableEq

/-- The metrics-recording effect of `metrics_middleware` (lines 143-170):
when `call_next` returns within the deadline it records the request time
and then a success (lines 153-154); on `asyncio.TimeoutError` (line 161)
or any other exception (line 167) it records an error — and only an
error — and re-raises. -/
def metrics_middleware (m : MetricsCollector) (endpoint : String)
    (outcome : CallOutcome) : MetricsCollector :=
  match outcome with
  | .success duration =>
      record_success (record_request_time m endpoint duration) endpoint
  | .timeout => record_error m endpoint
  | .failure => record_error m endpoint

/-- C9 counterexample: a failing request through an endpoint records no
latency sample at all — the middleware's exception path increments only
the error counter, so it is false that a latency sample and an outcome
are both recorded regardless of whether the request succeeds or fails. -/
theorem metrics_on_failure_c9_counterexample :
    (metrics_middleware MetricsCollector.init "/api/test/1-standard"
        CallOutcome.failure).request_times = [] ∧
    dictGet (metrics_middleware MetricsCollector.init "/api/test/1-standard"
        CallOutcome.failure).error_counts "/api/test/1-standard" 0 = 1 := by
  constructor
  · rfl
  · simp [metrics_middleware, record_error, MetricsCollector.init, dictGet,
      dictSet]

/-- C9 (amended): on a successful request the middleware records both a
latency sample and a success outcome for the endpoint; on a timed-out or
otherwise failing request it records only an error outcome and no
latency sample; recording is a total function of the collector state
(it cannot raise to the caller). -/
theorem metrics_middleware_c9_amended (m : MetricsCollector) (E : String)
    (d : ℚ) :
    (metrics_middleware m E (CallOutcome.success d)).request_times =
      dictSet m.request_times E
        (appendCapped (dictGet m.request_times E []) d) ∧
    dictGet (metrics_middleware m E (CallOutcome.success d)).success_counts
        E 0 = dictGet m.success_counts E 0 + 1 ∧
    (metrics_middleware m E CallOutcome.timeout).request_times =
      m.request_times ∧
    (metrics_middleware m E CallOutcome.failure).request_times =
      m.request_times ∧
    dictGet (metrics_middleware m E CallOutcome.timeout).error_counts E 0 =
      dictGet m.error_counts E 0 + 1 ∧
    dictGet (metrics_middleware m E CallOutcome.failure).error_counts E 0 =
      dictGet m.error_counts E 0 + 1 := by
  refine ⟨rfl, ?_, rfl, rfl, ?_, ?_⟩ <;>
    simp [metrics_middleware, record_success, record_request_time,
      record_error, dictGet_set_same]

/-!
## Interleaved execution of the idempotent endpoint (claim C2)

The handler body performs, in order: the token lookup of line 462, the
persistence call of line 473 (the database round-trip is the request's
suspension point: while one in-flight request waits on it another may
run), and the cache store plus reply of lines 477-493.  The source
contains no lock, compare-and-swap insert, or any other mutual-exclusion
primitive around this check-then-act sequence, so the interleaving of
two first-time submissions for the same token in which both lookups
happen before either store is a possible execution.  Each constructor of
`ReqPhase` is a point between two of those atomic sections;
`record_id` is modelled as the autoincrement row id `save_calls + 1`.
-/

inductive ReqPhase where
  | ready
  | persisting
  | storing (record_id : Nat)
  | replied (r : IdemResponse)
deriving Repr, DecidableEq

/-- One atomic section of `test_idempotent_request` executed by one
in-flight request against the shared state. -/
def stepThread (st : IdemState) (tok : String) (d : MarcacionStandard)
    (e : ℚ) (now : String) : ReqPhase → ReqPhase × IdemState
  | .ready =>
      match dictGetOpt st.processed_tokens tok with
      | some stored => (.replied (annotateDuplicate stored), st)
      | none => (.persisting, st)
  | .persisting =>
      (.storing (st.save_calls + 1), { st with save_calls := st.save_calls + 1 })
  | .storing rid =>
      let result := freshResult tok d e now rid
      (.replied result,
       { st with processed_tokens := dictSet st.processed_tokens tok result })
  | .replied r => (.replied r, st)

/-- Interleave two in-flight requests for the same token under a
schedule: `true` steps request A, `false` steps request B. -/
def runSched (tok : String) (d : MarcacionStandard) (e : ℚ) (now : String) :
    List Bool → ReqPhase × ReqPhase × IdemState →
      ReqPhase × ReqPhase × IdemState
  | [], s => s
  | true :: rest, (a, b, st) =>
      let p := stepThread st tok d e now a
      runSched tok d e now rest (p.1, b, p.2)
  | false :: rest, (a, b, st) =>
      let p := stepThread st tok d e now b
      runSched tok d e now rest (a, p.1, p.2)

def ReqPhase.repliedId : ReqPhase → Option Nat
  | .replied r => some r.record_id
  | _ => none

/-- C2: two concurrent first-time submissions for token "tok-1", under
the interleaving in which both lookups (line 462) happen before either
store (line 491), produce TWO invocations of the persistence operation
and reply with two DIFFERENT record_ids (1 and 2).  The check-then-act
sequence of the code is not an atomic critical section — no
serialization mechanism exists in the source — so the claimed exactly
one persistence call and the claimed agreement of all responses fail on
this execution. -/
theorem unsynchronized_race_c2 :
    (runSched "tok-1" marcacionExample 5 "t0"
        [true, false, true, true, false, false]
        (ReqPhase.ready, ReqPhase.ready, ⟨[], 0⟩)).2.2.save_calls = 2 ∧
    (runSched "tok-1" marcacionExample 5 "t0"
        [true, false, true, true, false, false]
        (ReqPhase.ready, ReqPhase.ready, ⟨[], 0⟩)).1.repliedId = some 1 ∧
    (runSched "tok-1" marcacionExample 5 "t0"
        [true, false, true, true, false, false]
        (ReqPhase.ready, ReqPhase.ready, ⟨[], 0⟩)).2.1.repliedId = some 2 := by
  refine ⟨?_, ?_, ?_⟩ <;> rfl
